import Mathlib

/-!
Shallow embedding of `src/golix/cipher.py` (Muterra/py_muse): the identity /
ciphersuite layer of the Golix protocol.  Bytes are `List Nat`; container
records from the external serializer (`._getlow`, `smartyparse`) and the
external crypto primitives (pycryptodome RSA/AES/HMAC/HKDF, donna25519) enter
as explicit function parameters, while every operation defined in
`cipher.py` itself is translated directly.  Python exceptions are modelled by
an error type whose constructors follow the spec's taxonomy; in the code the
corresponding classes are RuntimeError (ConfigurationError), TypeError
(TypeMismatch), SecurityError (SecurityFailure), ParseError (ParseFailure)
and AttributeError (AttributeFailure).
-/

namespace Golix

/-- Byte strings, one natural number per byte. -/
abbrev Bytes := List Nat

/-- `utils.Guid`: an address algorithm id together with the address digest. -/
structure Guid where
  algo : Nat
  address : Bytes
deriving DecidableEq, Repr

/-- `utils.Secret`: symmetric key material tagged with its ciphersuite id
(`cipher`), holding a key and a nonce/seed. -/
structure Secret where
  cipher : Nat
  key : Bytes
  seed : Bytes
deriving DecidableEq, Repr

/-- The exception taxonomy.  Constructor names follow the spec; the comment on
each names the Python class raised by `cipher.py`. -/
inductive PyError where
  | ConfigurationError   -- RuntimeError at construction from a bad key bundle
  | TypeMismatch         -- TypeError
  | SecurityFailure      -- utils.SecurityError
  | ParseFailure         -- smartyparse.ParseError
  | AttributeFailure     -- AttributeError (reading an attribute never set)
deriving DecidableEq, Repr

/- ## Symmetric cipher of CipherSuite-1 (AES-256-CTR)

`FirstPersonIdentity1._encrypt` / `._decrypt` both convert the secret's seed
to a big-endian integer, build a 128-bit counter starting there, and run
AES-CTR.  AES-CTR applies the block cipher to successive counter values and
XORs the resulting keystream into the data; the AES block function is an
external primitive, passed in as `aesBlock`. -/

/-- `int.from_bytes(bs, byteorder='big')`. -/
def bytesToIntBE (bs : Bytes) : Nat :=
  bs.foldl (fun acc b => acc * 256 + b) 0

/-- The CTR keystream: block `i` is the AES encryption of counter value
`(ctr0 + i) mod 2^128` (`Counter.new(nbits=128, initial_value=ctr_start)`
wraps at 128 bits). -/
def ctrKeystream (aesBlock : Bytes → Nat → Bytes) (key : Bytes) (ctr0 : Nat)
    (nblocks : Nat) : Bytes :=
  (List.range nblocks).flatMap (fun i => aesBlock key ((ctr0 + i) % 2 ^ 128))

/-- XOR the data into the CTR keystream, as `cipher.encrypt(data)` /
`cipher.decrypt(data)` both do for `AES.MODE_CTR`. -/
def ctrProcess (aesBlock : Bytes → Nat → Bytes) (key : Bytes) (ctr0 : Nat)
    (data : Bytes) : Bytes :=
  List.zipWith Nat.xor data
    (ctrKeystream aesBlock key ctr0 ((data.length + 15) / 16))

namespace FirstPersonIdentity1

/-- `FirstPersonIdentity1._encrypt(secret, data)`. -/
def _encrypt (aesBlock : Bytes → Nat → Bytes) (secret : Secret) (data : Bytes) :
    Bytes :=
  ctrProcess aesBlock secret.key (bytesToIntBE secret.seed) data

/-- `FirstPersonIdentity1._decrypt(secret, data)`: same counter setup, and
`cipher.decrypt` in CTR mode is the same keystream XOR as `cipher.encrypt`. -/
def _decrypt (aesBlock : Bytes → Nat → Bytes) (secret : Secret) (data : Bytes) :
    Bytes :=
  ctrProcess aesBlock secret.key (bytesToIntBE secret.seed) data

end FirstPersonIdentity1

namespace FirstPersonIdentity0

/-- `FirstPersonIdentity0._decrypt`: ignores both arguments and returns the
fixed placeholder bytes of the null suite. -/
def _decrypt (_secret : Secret) (_data : Bytes) : Bytes :=
  ("[[ PLACEHOLDER DECRYPTED SYMMETRIC MESSAGE. Hello world! ]]".toList.map
    Char.toNat)

/-- `FirstPersonIdentity0._encrypt`: ignores both arguments and returns the
fixed placeholder bytes of the null suite. -/
def _encrypt (_secret : Secret) (_data : Bytes) : Bytes :=
  ("[[ PLACEHOLDER ENCRYPTED SYMMETRIC MESSAGE. Hello, world? ]]".toList.map
    Char.toNat)

end FirstPersonIdentity0

/- A first sanity lemma chain for the CTR round trip. -/

theorem zipWith_xor_cancel :
    ∀ (d k : Bytes), d.length ≤ k.length →
      List.zipWith Nat.xor (List.zipWith Nat.xor d k) k = d := by
  intro d
  induction d with
  | nil => intro k _; simp
  | cons a d ih =>
    intro k hk
    cases k with
    | nil => simp at hk
    | cons b k =>
      simp only [List.zipWith, List.length_cons] at hk ⊢
      have h1 : Nat.xor (Nat.xor a b) b = a := Nat.xor_cancel_right b a
      rw [h1, ih k (Nat.succ_le_succ_iff.mp hk)]

theorem ctrKeystream_length (aesBlock : Bytes → Nat → Bytes) (key : Bytes)
    (ctr0 nblocks : Nat) (hblk : ∀ k c, (aesBlock k c).length = 16) :
    (ctrKeystream aesBlock key ctr0 nblocks).length = 16 * nblocks := by
  have h : List.map (List.length ∘ fun i => aesBlock key ((ctr0 + i) % 2 ^ 128))
      (List.range nblocks) = List.map (fun _ => 16) (List.range nblocks) :=
    List.map_congr_left (fun a _ => hblk key ((ctr0 + a) % 2 ^ 128))
  simp only [ctrKeystream, List.length_flatMap, h, List.map_const',
    List.length_range, List.sum_const_nat]
  exact Nat.mul_comm nblocks 16

theorem le_blocks_mul (n : Nat) : n ≤ 16 * ((n + 15) / 16) := by
  omega

/- ## Identities, key bundles, third-person projection (ciphersuite 1)

RSA key objects are opaque (`Nat` handles); the X25519 exchange is modelled
as exponentiation in the multiplicative group mod `p` with generator `g`:
`PrivateKey` is a scalar, `get_public()` is `g ^ priv % p`, and
`do_exchange` raises the partner's public point to one's own scalar, which
is exactly the algebra the donna25519 exchange satisfies. -/

/-- `int.to_bytes(n, length, byteorder='big')`. -/
def intToBytesBE : Nat → Nat → Bytes
  | 0, _ => []
  | len + 1, n => intToBytesBE len (n / 256) ++ [n % 256]

/-- donna25519 `PrivateKey.get_public()` for scalar `priv`. -/
def ecdhPublic (p g priv : Nat) : Nat := g ^ priv % p

/-- donna25519 `PrivateKey.do_exchange(partner_public)`. -/
def do_exchange (p priv partnerPublic : Nat) : Nat := partnerPublic ^ priv % p

/-- The private key bundle of a `FirstPersonIdentity1` as produced by
`_generate_keys`: two RSA-4096 keys and an X25519 scalar. -/
structure Keys1 where
  signature : Nat
  encryption : Nat
  exchange : Nat
deriving DecidableEq, Repr

/-- `ThirdPersonIdentity1`: public key material, the author guid computed
from the packed GIDC, and the packed GIDC bytes.  `cipher` is the class
attribute `_ciphersuite = 1`. -/
structure ThirdPersonIdentity1 where
  cipher : Nat
  author_guid : Guid
  signature_key : Nat
  encryption_key : Nat
  exchange_key : Nat
  packed : Bytes
deriving DecidableEq, Repr

/-- `ThirdPersonIdentity1.from_keys(keys, address_algo)`: `_pack_keys`
renders the RSA moduli as 512 big-endian bytes and the raw X25519 public
bytes, a GIDC is built from them and packed with the class ciphersuite
(`gidcPack` is the external GIDC serializer, returning the guid and the
canonical bytes), and the instance keeps the keys, the resulting
`author_guid` and the packed bytes. -/
def ThirdPersonIdentity1.from_keys
    (gidcPack : Bytes → Bytes → Bytes → Nat → Nat → Guid × Bytes)
    (sigPub encPub exchPub : Nat) (address_algo : Nat) :
    ThirdPersonIdentity1 :=
  let gp := gidcPack (intToBytesBE 512 sigPub) (intToBytesBE 512 encPub)
    (intToBytesBE 32 exchPub) 1 address_algo
  { cipher := 1, author_guid := gp.1, signature_key := sigPub,
    encryption_key := encPub, exchange_key := exchPub, packed := gp.2 }

/-- `FirstPersonIdentity1`: private key material plus identity state.
`third` is the `_third_party` attribute: `none` when it was never set. -/
structure FirstPersonIdentity1 where
  cipher : Nat
  author_guid : Guid
  signature_key : Nat
  encryption_key : Nat
  exchange_key : Nat
  address_algo : Nat
  third : Option ThirdPersonIdentity1
deriving DecidableEq, Repr

/-- `FirstPersonIdentity1._generate_third_person(keys, address_algo)`:
project the public halves (`publickey()` modelled by `rsaPublic`,
`get_public()` by `ecdhPublic p g`) and build the third person via
`from_keys`. -/
def FirstPersonIdentity1._generate_third_person
    (gidcPack : Bytes → Bytes → Bytes → Nat → Nat → Guid × Bytes)
    (rsaPublic : Nat → Nat) (p g : Nat) (keys : Keys1) (address_algo : Nat) :
    ThirdPersonIdentity1 :=
  ThirdPersonIdentity1.from_keys gidcPack (rsaPublic keys.signature)
    (rsaPublic keys.encryption) (ecdhPublic p g keys.exchange) address_algo

/-- The generation branch of `_FirstPersonBase.__init__` (no `keys`, no
`author_guid`): draw fresh keys (`freshKeys` stands for the RNG output of
`_generate_keys()`), build `_third_party` from them, and take the author
guid from the third person. -/
def FirstPersonIdentity1.generate
    (gidcPack : Bytes → Bytes → Bytes → Nat → Nat → Guid × Bytes)
    (rsaPublic : Nat → Nat) (p g : Nat) (freshKeys : Keys1)
    (address_algo : Nat) : FirstPersonIdentity1 :=
  let tp := FirstPersonIdentity1._generate_third_person gidcPack rsaPublic p g
    freshKeys address_algo
  { cipher := 1, author_guid := tp.author_guid,
    signature_key := freshKeys.signature,
    encryption_key := freshKeys.encryption,
    exchange_key := freshKeys.exchange,
    address_algo := address_algo, third := some tp }

/-- `_FirstPersonBase.__init__(keys, author_guid, address_algo)` for
ciphersuite 1.  Loading an existing identity requires both `keys` and
`author_guid`; passing exactly one raises TypeError; passing neither
generates a new identity.  The loading branch is a `pass`: it never sets
`_third_party`. -/
def FirstPersonIdentity1.init
    (gidcPack : Bytes → Bytes → Bytes → Nat → Nat → Guid × Bytes)
    (rsaPublic : Nat → Nat) (p g : Nat) (freshKeys : Keys1)
    (keys : Option Keys1) (author_guid : Option Guid) (address_algo : Nat) :
    Except PyError FirstPersonIdentity1 :=
  match keys, author_guid with
  | some k, some ag =>
    .ok { cipher := 1, author_guid := ag, signature_key := k.signature,
          encryption_key := k.encryption, exchange_key := k.exchange,
          address_algo := address_algo, third := none }
  | some _, none => .error .TypeMismatch
  | none, some _ => .error .TypeMismatch
  | none, none =>
    .ok (FirstPersonIdentity1.generate gidcPack rsaPublic p g freshKeys
      address_algo)

/-- The `third_party` property: reads `self._third_party`; when the
attribute was never set (an identity loaded from existing keys), Python
raises AttributeError. -/
def FirstPersonIdentity1.third_party (self : FirstPersonIdentity1) :
    Except PyError ThirdPersonIdentity1 :=
  match self.third with
  | some tp => .ok tp
  | none => .error .AttributeFailure

/-- `FirstPersonIdentity1._derive_shared(partner)`: X25519 exchange of own
private scalar with the partner's public point; the HKDF salt is the
byte-wise XOR of both author address digests; `hkdf master salt` is the
external HKDF-SHA512 primitive. -/
def FirstPersonIdentity1._derive_shared (hkdf : Nat → Bytes → Bytes) (p : Nat)
    (self : FirstPersonIdentity1) (partner : ThirdPersonIdentity1) : Bytes :=
  let ecdh := do_exchange p self.exchange_key partner.exchange_key
  let salt := List.zipWith Nat.xor self.author_guid.address
    partner.author_guid.address
  hkdf ecdh salt

theorem do_exchange_symm (p g a b : Nat) :
    do_exchange p a (ecdhPublic p g b) = do_exchange p b (ecdhPublic p g a) := by
  unfold do_exchange ecdhPublic
  rw [← Nat.pow_mod, ← Nat.pow_mod, ← pow_mul, ← pow_mul, Nat.mul_comm]

theorem zipWith_xor_comm (a b : Bytes) :
    List.zipWith Nat.xor a b = List.zipWith Nat.xor b a :=
  List.zipWith_comm_of_comm Nat.xor Nat.xor_comm a b

/- ## Generic `_IdentityBase.__init__` (any ciphersuite, C7) -/

/-- A key bundle as passed to `_IdentityBase.__init__`: a dict-like object
in which any of the three required roles may be missing. -/
structure KeyDict (K : Type) where
  signature : Option K
  encryption : Option K
  exchange : Option K
deriving DecidableEq, Repr

/-- The state `_IdentityBase.__init__` establishes on success. -/
structure IdentityState (K : Type) where
  author_guid : Guid
  signature_key : K
  encryption_key : K
  exchange_key : K
deriving DecidableEq, Repr

/-- `_IdentityBase.__init__(keys, author_guid)`: subscript the three
required roles; a missing one (KeyError, or TypeError for a non-dict) is
re-raised as the construction-time RuntimeError — the spec's
ConfigurationError. -/
def identityBaseInit (K : Type) (keys : KeyDict K) (author_guid : Guid) :
    Except PyError (IdentityState K) :=
  match keys.signature, keys.encryption, keys.exchange with
  | some s, some e, some x =>
    .ok { author_guid := author_guid, signature_key := s,
          encryption_key := e, exchange_key := x }
  | _, _, _ => .error .ConfigurationError

/- ## Asymmetric request envelopes: unpack_request / receive_request -/

/-- An inner asymmetric record as `unpack_request` rebuilds it
(`utils.AsymHandshake` / `AsymAck` / `AsymNak`). -/
inductive AsymRequest where
  | handshake (author target : Guid) (secret : Secret)
  | ack (author target : Guid) (status : Nat)
  | nak (author target : Guid) (status : Nat)
deriving DecidableEq, Repr

/-- The `author` field of an inner asymmetric record. -/
def AsymRequest.author : AsymRequest → Guid
  | .handshake a _ _ => a
  | .ack a _ _ => a
  | .nak a _ _ => a

/-- An unpacked `GARQ` container: the serializer's fields plus the
`_plaintext` attribute `unpack_request` caches on the instance (`none`
while the attribute is absent). -/
structure GARQ where
  recipient : Guid
  payload : Bytes
  guid : Guid
  signature : Bytes
  plaintext : Option AsymRequest := none
deriving DecidableEq, Repr

/-- The fields of an unpacked `GARQHandshake`. -/
structure HandshakeFields where
  author : Guid
  target : Guid
  secret : Secret
deriving DecidableEq, Repr

/-- The fields of an unpacked `GARQAck` or `GARQNak`. -/
structure StatusFields where
  author : Guid
  target : Guid
  status : Nat
deriving DecidableEq, Repr

/-- `_FirstPersonBase.unpack_request(packed)`.  External pieces enter as
parameters: `garqUnpack` (`GARQ.unpack`), `decryptAsym` (the suite's
`_decrypt_asym`), and the three inner parsers `hsUnpack` / `ackUnpack` /
`nakUnpack` (`GARQHandshake.unpack`, `GARQAck.unpack`, `GARQNak.unpack`),
each of which may fail with any error.  Per candidate exactly ParseFailure
is caught before moving to the next; when all three fail to parse,
SecurityFailure is raised.  On success the rebuilt record is cached on the
envelope as `_plaintext` and `(request.author, garq)` is returned. -/
def unpack_request
    (garqUnpack : Bytes → Except PyError GARQ)
    (decryptAsym : Bytes → Except PyError Bytes)
    (hsUnpack : Bytes → Except PyError HandshakeFields)
    (ackUnpack : Bytes → Except PyError StatusFields)
    (nakUnpack : Bytes → Except PyError StatusFields)
    (packed : Bytes) : Except PyError (Guid × GARQ) :=
  match garqUnpack packed with
  | .error e => .error e
  | .ok garq =>
    match decryptAsym garq.payload with
    | .error e => .error e
    | .ok plaintext =>
      let tryCascade : Except PyError AsymRequest :=
        match hsUnpack plaintext with
        | .ok u => .ok (AsymRequest.handshake u.author u.target u.secret)
        | .error .ParseFailure =>
          match ackUnpack plaintext with
          | .ok u => .ok (AsymRequest.ack u.author u.target u.status)
          | .error .ParseFailure =>
            match nakUnpack plaintext with
            | .ok u => .ok (AsymRequest.nak u.author u.target u.status)
            | .error .ParseFailure => .error .SecurityFailure
            | .error e => .error e
          | .error e => .error e
        | .error e => .error e
      match tryCascade with
      | .error e => .error e
      | .ok request =>
        .ok (request.author, { garq with plaintext := some request })

/-- `FirstPersonIdentity1._verify_mac(key, mac, data)`: recompute the
HMAC-SHA512 (external primitive `hmac key data`) and compare with the given
tag; a mismatch (pycryptodome ValueError) is re-raised as SecurityFailure;
success returns True. -/
def FirstPersonIdentity1._verify_mac (hmac : Bytes → Bytes → Bytes)
    (key mac data : Bytes) : Except PyError Bool :=
  if hmac key data = mac then .ok true else .error .SecurityFailure

/-- The `request` argument of `receive_request` as Python receives it:
either an actual unpacked `GARQ` instance or any other object. -/
inductive PyReqArg where
  | garq (g : GARQ)
  | notGarq
deriving DecidableEq, Repr

/-- `_FirstPersonBase.receive_request(public, request)` with CipherSuite-1
primitives, in state-passing form: the second component is the envelope
after the call (Python mutates `request._plaintext` in place; the sender
typecheck on `public` is the static typing here).  Reject non-GARQ
arguments; reading a missing `_plaintext` raises TypeError; verify the MAC
over the envelope's address under the shared secret derived with `public`;
only on success discard the cached plaintext and return it. -/
def receive_request (hmac : Bytes → Bytes → Bytes) (hkdf : Nat → Bytes → Bytes)
    (p : Nat) (self : FirstPersonIdentity1) (public : ThirdPersonIdentity1)
    (request : PyReqArg) : Except PyError AsymRequest × PyReqArg :=
  match request with
  | .notGarq => (.error .TypeMismatch, .notGarq)
  | .garq g =>
    match g.plaintext with
    | none => (.error .TypeMismatch, .garq g)
    | some pt =>
      match FirstPersonIdentity1._verify_mac hmac
          (FirstPersonIdentity1._derive_shared hkdf p self public)
          g.signature g.guid.address with
      | .error e => (.error e, .garq g)
      | .ok _ => (.ok pt, .garq { g with plaintext := none })

/- ## GEOC objects: make_object / receive_object -/

/-- An unpacked `GEOC` container with its attached signature. -/
structure GEOC where
  author : Guid
  payload : Bytes
  guid : Guid
  signature : Bytes
deriving DecidableEq, Repr

/-- The `obj` argument of `receive_object`: an unpacked `GEOC` instance or
any other object. -/
inductive PyObjArg where
  | geoc (g : GEOC)
  | notGeoc
deriving DecidableEq, Repr

/-- The `secret` argument as Python receives it: an actual `utils.Secret`
instance or any other object. -/
inductive PySecretArg where
  | secret (s : Secret)
  | notSecret
deriving DecidableEq, Repr

/-- `_IdentityBase._typecheck_secret(secret)`: an instance check followed by
a ciphersuite-id comparison. -/
def _typecheck_secret (ciphersuite : Nat) : PySecretArg → Bool
  | .secret s => s.cipher == ciphersuite
  | .notSecret => false

/-- `_FirstPersonBase.make_object(secret, plaintext)` (the spec's
`create_object`): typecheck the secret against the identity's own
ciphersuite, raising TypeError on mismatch before any cryptographic call
(the error branch uses none of `encrypt`, `geocPack`, `sign`, `packSig`);
otherwise encrypt the plaintext, pack the GEOC (external serializer
`geocPack author payload cipher algo`, returning guid and canonical bytes),
sign the resulting address, and attach the signature via `packSig`. -/
def make_object (ciphersuite address_algo : Nat) (author_guid : Guid)
    (encrypt : Secret → Bytes → Bytes)
    (geocPack : Guid → Bytes → Nat → Nat → Guid × Bytes)
    (sign : Bytes → Bytes)
    (packSig : Bytes → Bytes → Bytes)
    (secret : PySecretArg) (plaintext : Bytes) : Except PyError (Guid × Bytes) :=
  if _typecheck_secret ciphersuite secret then
    match secret with
    | .secret s =>
      let gp := geocPack author_guid (encrypt s plaintext) ciphersuite
        address_algo
      .ok (gp.1, packSig gp.2 (sign gp.1.address))
    | .notSecret => .error .TypeMismatch
  else .error .TypeMismatch

/-- `FirstPersonIdentity1._verify(public, signature, data)`: PSS
verification over the partner's public signature key (external primitive
`pssVerify`); a mismatch (pycryptodome ValueError) is re-raised as
SecurityFailure; success returns True. -/
def FirstPersonIdentity1._verify (pssVerify : Nat → Bytes → Bytes → Bool)
    (public : ThirdPersonIdentity1) (signature data : Bytes) :
    Except PyError Bool :=
  if pssVerify public.signature_key signature data then .ok true
  else .error .SecurityFailure

/-- `_FirstPersonBase.receive_object(public, secret, obj)` instantiated
with CipherSuite-1's `_verify`: reject non-GEOC arguments with TypeError;
verify the signature over the object's address; only on success decrypt the
payload with the secret and return `(guid, plaintext)`. -/
def receive_object (pssVerify : Nat → Bytes → Bytes → Bool)
    (decrypt : Secret → Bytes → Bytes)
    (public : ThirdPersonIdentity1) (secret : Secret) (obj : PyObjArg) :
    Except PyError (Guid × Bytes) :=
  match obj with
  | .notGeoc => .error .TypeMismatch
  | .geoc g =>
    match FirstPersonIdentity1._verify pssVerify public g.signature
        g.guid.address with
    | .error e => .error e
    | .ok _ => .ok (g.guid, decrypt secret g.payload)

/-- `FirstPersonIdentity0.new_secret()`:
`Secret(cipher=0, key=bytes(32), seed=None)` (`None` as empty bytes). -/
def FirstPersonIdentity0.new_secret : Secret :=
  { cipher := 0, key := List.replicate 32 0, seed := [] }

/- ## Concrete instances used by witnesses and counterexamples -/

/-- A trivial GIDC serializer for concrete instances. -/
def gidcPackTrivial : Bytes → Bytes → Bytes → Nat → Nat → Guid × Bytes :=
  fun _ _ _ _ _ => (⟨1, [0]⟩, [])

/-- The `FirstPersonIdentity1` state a loading call
`FirstPersonIdentity1(keys=Keys1(7,8,9), author_guid=Guid(1,[4]))`
establishes. -/
def loadedIdentityExample : FirstPersonIdentity1 :=
  { cipher := 1, author_guid := ⟨1, [4]⟩, signature_key := 7,
    encryption_key := 8, exchange_key := 9, address_algo := 1, third := none }

/-- A concrete first person for the receive_request witnesses. -/
def fpConcrete : FirstPersonIdentity1 :=
  { cipher := 1, author_guid := ⟨1, [1]⟩, signature_key := 1,
    encryption_key := 2, exchange_key := 3, address_algo := 1, third := none }

/-- A concrete third person for the receive_request witnesses. -/
def tpConcrete : ThirdPersonIdentity1 :=
  { cipher := 1, author_guid := ⟨1, [2]⟩, signature_key := 4,
    encryption_key := 5, exchange_key := 6, packed := [] }

/-- A concrete unpacked envelope with a cached plaintext. -/
def garqConcrete : GARQ :=
  { recipient := ⟨1, [2]⟩, payload := [3], guid := ⟨1, [4]⟩,
    signature := [9], plaintext := some (.ack ⟨1, [1]⟩ ⟨1, [5]⟩ 0) }

/-- A concrete envelope fresh from the serializer (no cached plaintext). -/
def garqW : GARQ :=
  { recipient := ⟨1, [1]⟩, payload := [2], guid := ⟨1, [3]⟩,
    signature := [4], plaintext := none }

/-- Concrete fields of a parsed inner handshake. -/
def hsFieldsW : HandshakeFields :=
  { author := ⟨1, [5]⟩, target := ⟨1, [6]⟩, secret := ⟨1, [7], [8]⟩ }

/- ## The claims -/

/-- Claim C1: `receive_object` verifies the signature over the object's
address with the sender's public signature key first, and only then
decrypts the payload with the secret: when PSS verification fails the call
raises SecurityFailure and no plaintext is produced — the outcome does not
depend on the decryption function at all; when it succeeds the result is
the guid paired with the decrypted payload. -/
theorem receive_object_verifies_before_decrypting
    (pssVerify : Nat → Bytes → Bytes → Bool)
    (public : ThirdPersonIdentity1) (secret : Secret) (g : GEOC) :
    (pssVerify public.signature_key g.signature g.guid.address = false →
      ∀ decrypt, receive_object pssVerify decrypt public secret (.geoc g)
        = .error .SecurityFailure) ∧
    (pssVerify public.signature_key g.signature g.guid.address = true →
      ∀ decrypt, receive_object pssVerify decrypt public secret (.geoc g)
        = .ok (g.guid, decrypt secret g.payload)) := by
  constructor <;> intro h decrypt <;>
    simp [receive_object, FirstPersonIdentity1._verify, h]

/-- Claim C2: `unpack_request` tries the inbound payload against Handshake,
then Ack, then Nak, returning the first that parses; per candidate only
ParseFailure is caught before advancing, any other error propagates
unchanged; when all three candidates fail to parse it raises
SecurityFailure. -/
theorem unpack_request_cascade
    (garqUnpack : Bytes → Except PyError GARQ)
    (decryptAsym : Bytes → Except PyError Bytes)
    (hsUnpack : Bytes → Except PyError HandshakeFields)
    (ackUnpack : Bytes → Except PyError StatusFields)
    (nakUnpack : Bytes → Except PyError StatusFields)
    (packed : Bytes) (garq : GARQ) (pt : Bytes)
    (hg : garqUnpack packed = .ok garq)
    (hd : decryptAsym garq.payload = .ok pt) :
    (∀ u, hsUnpack pt = .ok u →
      unpack_request garqUnpack decryptAsym hsUnpack ackUnpack nakUnpack packed
        = .ok (u.author,
            { garq with plaintext := some (.handshake u.author u.target u.secret) })) ∧
    (∀ e, e ≠ .ParseFailure → hsUnpack pt = .error e →
      unpack_request garqUnpack decryptAsym hsUnpack ackUnpack nakUnpack packed
        = .error e) ∧
    (hsUnpack pt = .error .ParseFailure →
      (∀ u, ackUnpack pt = .ok u →
        unpack_request garqUnpack decryptAsym hsUnpack ackUnpack nakUnpack packed
          = .ok (u.author,
              { garq with plaintext := some (.ack u.author u.target u.status) })) ∧
      (∀ e, e ≠ .ParseFailure → ackUnpack pt = .error e →
        unpack_request garqUnpack decryptAsym hsUnpack ackUnpack nakUnpack packed
          = .error e) ∧
      (ackUnpack pt = .error .ParseFailure →
        (∀ u, nakUnpack pt = .ok u →
          unpack_request garqUnpack decryptAsym hsUnpack ackUnpack nakUnpack packed
            = .ok (u.author,
                { garq with plaintext := some (.nak u.author u.target u.status) })) ∧
        (∀ e, e ≠ .ParseFailure → nakUnpack pt = .error e →
          unpack_request garqUnpack decryptAsym hsUnpack ackUnpack nakUnpack packed
            = .error e) ∧
        (nakUnpack pt = .error .ParseFailure →
          unpack_request garqUnpack decryptAsym hsUnpack ackUnpack nakUnpack packed
            = .error .SecurityFailure))) := by
  refine ⟨?_, ?_, ?_⟩
  · intro u hu
    simp [unpack_request, hg, hd, hu, AsymRequest.author]
  · intro e hne he
    cases e <;> simp_all [unpack_request, hg, hd]
  · intro h1
    refine ⟨?_, ?_, ?_⟩
    · intro u hu
      simp [unpack_request, hg, hd, h1, hu, AsymRequest.author]
    · intro e hne he
      cases e <;> simp_all [unpack_request, hg, hd]
    · intro h2
      refine ⟨?_, ?_, ?_⟩
      · intro u hu
        simp [unpack_request, hg, hd, h1, h2, hu, AsymRequest.author]
      · intro e hne he
        cases e <;> simp_all [unpack_request, hg, hd]
      · intro h3
        simp [unpack_request, hg, hd, h1, h2, h3]

/-- Witness for C2: a payload whose handshake parse succeeds is returned as
a Handshake with the parsed author, and the envelope caches it. -/
theorem unpack_request_cascade_witness :
    unpack_request (fun _ => .ok garqW) (fun _ => .ok [9])
        (fun _ => .ok hsFieldsW) (fun _ => .error .ParseFailure)
        (fun _ => .error .ParseFailure) [0]
      = .ok (⟨1, [5]⟩,
          { garqW with
              plaintext := some (.handshake ⟨1, [5]⟩ ⟨1, [6]⟩ ⟨1, [7], [8]⟩) }) :=
  (unpack_request_cascade (fun _ => .ok garqW) (fun _ => .ok [9])
      (fun _ => .ok hsFieldsW) (fun _ => .error .ParseFailure)
      (fun _ => .error .ParseFailure) [0] garqW [9] rfl rfl).1 hsFieldsW rfl

/-- Claim C3: `receive_request` consumes an envelope at most once: a
successful call returns the cached plaintext and discards the cache, and a
second call on the resulting envelope raises TypeError (a usage error, not
SecurityFailure), whatever primitives or sender it is given. -/
theorem receive_request_single_consumption (hmac : Bytes → Bytes → Bytes)
    (hkdf : Nat → Bytes → Bytes) (p : Nat) (self : FirstPersonIdentity1)
    (public : ThirdPersonIdentity1) (g : GARQ) (pt : AsymRequest)
    (hpt : g.plaintext = some pt)
    (hmacOk : hmac (FirstPersonIdentity1._derive_shared hkdf p self public)
        g.guid.address = g.signature) :
    receive_request hmac hkdf p self public (.garq g)
      = (.ok pt, .garq { g with plaintext := none }) ∧
    ∀ hmac2 hkdf2 p2 self2 public2,
      (receive_request hmac2 hkdf2 p2 self2 public2
        (.garq { g with plaintext := none })).1 = .error .TypeMismatch := by
  constructor
  · simp [receive_request, hpt, FirstPersonIdentity1._verify_mac, hmacOk]
  · intro hmac2 hkdf2 p2 self2 public2
    simp [receive_request]

/-- Witness for C3: a concrete envelope is consumed successfully and its
cache is discarded. -/
theorem receive_request_single_consumption_witness :
    receive_request (fun _ _ => [9]) (fun _ _ => []) 97 fpConcrete tpConcrete
        (.garq garqConcrete)
      = (.ok (.ack ⟨1, [1]⟩ ⟨1, [5]⟩ 0),
         .garq { garqConcrete with plaintext := none }) :=
  (receive_request_single_consumption (fun _ _ => [9]) (fun _ _ => []) 97
    fpConcrete tpConcrete garqConcrete _ rfl rfl).1

/-- Claim C4: shared-secret derivation between two generated identities of
ciphersuite 1 is symmetric: `A._derive_shared(B.third_party)` equals
`B._derive_shared(A.third_party)`, and in particular the HKDF salt — the
byte-wise XOR of the two author address digests — is the same whichever
side computes it. -/
theorem derive_shared_symmetric
    (gidcPack : Bytes → Bytes → Bytes → Nat → Nat → Guid × Bytes)
    (rsaPublic : Nat → Nat) (hkdf : Nat → Bytes → Bytes) (p g : Nat)
    (kA kB : Keys1) (aA aB : Nat) :
    FirstPersonIdentity1._derive_shared hkdf p
        (FirstPersonIdentity1.generate gidcPack rsaPublic p g kA aA)
        (FirstPersonIdentity1._generate_third_person gidcPack rsaPublic p g kB aB)
      = FirstPersonIdentity1._derive_shared hkdf p
        (FirstPersonIdentity1.generate gidcPack rsaPublic p g kB aB)
        (FirstPersonIdentity1._generate_third_person gidcPack rsaPublic p g kA aA) ∧
    List.zipWith Nat.xor
        (FirstPersonIdentity1.generate gidcPack rsaPublic p g kA aA).author_guid.address
        (FirstPersonIdentity1._generate_third_person gidcPack rsaPublic p g kB aB).author_guid.address
      = List.zipWith Nat.xor
        (FirstPersonIdentity1.generate gidcPack rsaPublic p g kB aB).author_guid.address
        (FirstPersonIdentity1._generate_third_person gidcPack rsaPublic p g kA aA).author_guid.address := by
  constructor
  · dsimp only [FirstPersonIdentity1._derive_shared, FirstPersonIdentity1.generate,
      FirstPersonIdentity1._generate_third_person, ThirdPersonIdentity1.from_keys]
    exact congrArg₂ hkdf (do_exchange_symm p g kA.exchange kB.exchange)
      (zipWith_xor_comm _ _)
  · exact zipWith_xor_comm _ _

/-- Counterexample to C5 as stated: for the null ciphersuite, decryption of
an encryption of `[104]` under the null suite's own fresh secret is the
fixed placeholder, not `[104]`: the round trip fails for this Secret. -/
theorem cs0_roundtrip_fails :
    FirstPersonIdentity0._decrypt FirstPersonIdentity0.new_secret
      (FirstPersonIdentity0._encrypt FirstPersonIdentity0.new_secret [104])
      ≠ [104] := by
  decide

/-- Claim C5 (amended to CipherSuite-1, whose secrets carry real key
material): for every AES block function of block length 16, every secret
and every plaintext, CTR-mode decryption inverts CTR-mode encryption. -/
theorem cs1_decrypt_encrypt_roundtrip
    (aesBlock : Bytes → Nat → Bytes) (secret : Secret) (data : Bytes)
    (hblk : ∀ k c, (aesBlock k c).length = 16) :
    FirstPersonIdentity1._decrypt aesBlock secret
      (FirstPersonIdentity1._encrypt aesBlock secret data) = data := by
  unfold FirstPersonIdentity1._decrypt FirstPersonIdentity1._encrypt ctrProcess
  have hkslen : ∀ nb, (ctrKeystream aesBlock secret.key
      (bytesToIntBE secret.seed) nb).length = 16 * nb :=
    fun nb => ctrKeystream_length aesBlock secret.key (bytesToIntBE secret.seed)
      nb hblk
  have hclen : (List.zipWith Nat.xor data (ctrKeystream aesBlock secret.key
      (bytesToIntBE secret.seed) ((data.length + 15) / 16))).length
      = data.length := by
    rw [List.length_zipWith, hkslen]
    exact Nat.min_eq_left (le_blocks_mul data.length)
  rw [hclen]
  exact zipWith_xor_cancel data _ (by rw [hkslen]; exact le_blocks_mul data.length)

/-- Witness for C5: a concrete three-byte plaintext survives the round trip
under an all-zero block function. -/
theorem cs1_decrypt_encrypt_roundtrip_witness :
    FirstPersonIdentity1._decrypt (fun _ _ => List.replicate 16 0)
      { cipher := 1, key := List.replicate 32 0, seed := List.replicate 16 0 }
      (FirstPersonIdentity1._encrypt (fun _ _ => List.replicate 16 0)
        { cipher := 1, key := List.replicate 32 0, seed := List.replicate 16 0 }
        [1, 2, 3]) = [1, 2, 3] :=
  cs1_decrypt_encrypt_roundtrip (fun _ _ => List.replicate 16 0)
    { cipher := 1, key := List.replicate 32 0, seed := List.replicate 16 0 }
    [1, 2, 3] (fun _ _ => by simp)

/-- Counterexample to C6 as stated: an identity loaded from existing keys
plus author_guid comes out of `__init__` with `_third_party` never set, so
reading `third_party` raises AttributeError instead of producing a paired
ThirdPersonIdentity. -/
theorem loaded_identity_lacks_third_party :
    FirstPersonIdentity1.init gidcPackTrivial id 97 5 ⟨1, 2, 3⟩
        (some ⟨7, 8, 9⟩) (some ⟨1, [4]⟩) 1
      = .ok loadedIdentityExample ∧
    FirstPersonIdentity1.third_party loadedIdentityExample
      = .error .AttributeFailure :=
  ⟨rfl, rfl⟩

/-- Claim C6 (amended to freshly generated identities): generating a
FirstPersonIdentity1 creates its ThirdPersonIdentity at construction; the
`third_party` property returns it, and the two share `author_guid` and the
ciphersuite id. -/
theorem generated_identity_pairs_third_person
    (gidcPack : Bytes → Bytes → Bytes → Nat → Nat → Guid × Bytes)
    (rsaPublic : Nat → Nat) (p g : Nat) (freshKeys : Keys1) (algo : Nat) :
    FirstPersonIdentity1.init gidcPack rsaPublic p g freshKeys none none algo
      = .ok (FirstPersonIdentity1.generate gidcPack rsaPublic p g freshKeys algo) ∧
    ∃ tp, (FirstPersonIdentity1.generate gidcPack rsaPublic p g freshKeys
        algo).third_party = .ok tp ∧
      tp.author_guid = (FirstPersonIdentity1.generate gidcPack rsaPublic p g
        freshKeys algo).author_guid ∧
      tp.cipher = (FirstPersonIdentity1.generate gidcPack rsaPublic p g
        freshKeys algo).cipher :=
  ⟨rfl, FirstPersonIdentity1._generate_third_person gidcPack rsaPublic p g
    freshKeys algo, rfl, rfl, rfl⟩

/-- Claim C7: constructing an identity from a key bundle missing one of the
required roles (signature, encryption, exchange) fails at construction time
with the configuration error (`_IdentityBase.__init__` re-raises the failed
subscript as RuntimeError). -/
theorem identity_init_missing_role (K : Type) (keys : KeyDict K) (ag : Guid)
    (h : keys.signature = none ∨ keys.encryption = none ∨
      keys.exchange = none) :
    identityBaseInit K keys ag = .error .ConfigurationError := by
  obtain ⟨s, e, x⟩ := keys
  cases s <;> cases e <;> cases x <;> simp_all [identityBaseInit]

/-- Witness for C7: a bundle whose signature role is missing is rejected. -/
theorem identity_init_missing_role_witness :
    identityBaseInit Nat
        { signature := none, encryption := some 1, exchange := some 2 }
        ⟨1, [3]⟩
      = .error .ConfigurationError :=
  identity_init_missing_role Nat
    { signature := none, encryption := some 1, exchange := some 2 }
    ⟨1, [3]⟩ (Or.inl rfl)

/-- Claim C8: `make_object` typechecks the secret against the identity's
own ciphersuite and raises TypeError on any mismatch (a non-Secret, or a
Secret of another suite) before any cryptographic call — the error branch
is independent of the encryption, packing and signing functions; for a
matching secret it encrypts the plaintext, packs the GEOC, signs the
resulting address and attaches the signature. -/
theorem make_object_typecheck_fail_fast (cs algo : Nat) (author : Guid)
    (secret : PySecretArg) (plaintext : Bytes) :
    (_typecheck_secret cs secret = false →
      ∀ encrypt geocPack sgn packSig,
        make_object cs algo author encrypt geocPack sgn packSig secret
          plaintext = .error .TypeMismatch) ∧
    (∀ s, secret = .secret s → s.cipher = cs →
      ∀ encrypt geocPack sgn packSig,
        make_object cs algo author encrypt geocPack sgn packSig secret
          plaintext
          = .ok ((geocPack author (encrypt s plaintext) cs algo).1,
              packSig (geocPack author (encrypt s plaintext) cs algo).2
                (sgn (geocPack author (encrypt s plaintext) cs
                  algo).1.address))) := by
  constructor
  · intro h encrypt geocPack sgn packSig
    simp [make_object, h]
  · rintro s rfl hcs encrypt geocPack sgn packSig
    simp [make_object, _typecheck_secret, hcs]

/-- Claim C9: when MAC verification inside `receive_request` fails, the
call raises SecurityFailure and leaves the envelope unchanged — the cached
plaintext is not discarded — so a later call on the same envelope whose MAC
check succeeds (e.g. with the correct sender) still returns the
plaintext. -/
theorem receive_request_mac_failure_preserves_envelope
    (hmac : Bytes → Bytes → Bytes) (hkdf : Nat → Bytes → Bytes) (p : Nat)
    (self : FirstPersonIdentity1) (public : ThirdPersonIdentity1)
    (g : GARQ) (pt : AsymRequest)
    (hpt : g.plaintext = some pt)
    (hbad : hmac (FirstPersonIdentity1._derive_shared hkdf p self public)
        g.guid.address ≠ g.signature) :
    receive_request hmac hkdf p self public (.garq g)
      = (.error .SecurityFailure, .garq g) ∧
    ∀ hmac2 hkdf2 p2 self2 public2,
      hmac2 (FirstPersonIdentity1._derive_shared hkdf2 p2 self2 public2)
          g.guid.address = g.signature →
      (receive_request hmac2 hkdf2 p2 self2 public2 (.garq g)).1 = .ok pt := by
  constructor
  · simp [receive_request, hpt, FirstPersonIdentity1._verify_mac, hbad]
  · intro hmac2 hkdf2 p2 self2 public2 hok
    simp [receive_request, hpt, FirstPersonIdentity1._verify_mac, hok]

/-- Witness for C9: a failing MAC on a concrete envelope raises
SecurityFailure and leaves the cached plaintext in place. -/
theorem receive_request_mac_failure_witness :
    receive_request (fun _ _ => [0]) (fun _ _ => []) 97 fpConcrete tpConcrete
        (.garq garqConcrete)
      = (.error .SecurityFailure, .garq garqConcrete) :=
  (receive_request_mac_failure_preserves_envelope (fun _ _ => [0])
    (fun _ _ => []) 97 fpConcrete tpConcrete garqConcrete _ rfl
    (by decide)).1

/-- Claim C10: for CipherSuite-1, symmetric encryption and decryption are
the same function: both build the identical AES-CTR keystream from the key
and the big-endian nonce and XOR it with the input. -/
theorem cs1_encrypt_eq_decrypt (aesBlock : Bytes → Nat → Bytes)
    (secret : Secret) (data : Bytes) :
    FirstPersonIdentity1._encrypt aesBlock secret data
      = FirstPersonIdentity1._decrypt aesBlock secret data ∧
    FirstPersonIdentity1._encrypt aesBlock secret data
      = List.zipWith Nat.xor data (ctrKeystream aesBlock secret.key
          (bytesToIntBE secret.seed) ((data.length + 15) / 16)) :=
  ⟨rfl, rfl⟩

end Golix
